import Mathlib

/-!
Verification of the override-reconciliation workflow of `app.py`
(Streamlit "Override Dashboard").

The source is a single Streamlit script.  Its pure logic (catalog
filtering, module parsing, primary-key resolution, change detection,
SQL-text construction) is embedded directly from the source.  The
backing data store (Snowflake) is an external collaborator: its
`update` / `insert` statement semantics are modelled from the spec
(section 6, "Data store interface").  Rows are association lists from
column names to string values; the store maps an upper-cased table
name to a list of rows (Snowflake folds unquoted identifiers to upper
case, which the script relies on when it passes the catalog-cased
column name to SQL while the dataframes carry upper-cased columns).
-/

set_option autoImplicit false

/-- A row: association list from column name to (stringly typed) cell value. -/
abbrev Row := List (String × String)

/-- A table is a list of rows. -/
abbrev Table := List Row

/-- The data store, keyed by upper-cased table name. -/
abbrev Store := String → Table

/-- ASCII upper-casing of a character (identifiers here are ASCII). -/
def upChar (c : Char) : Char :=
  if 97 <= c.toNat && c.toNat <= 122 then Char.ofNat (c.toNat - 32) else c

/-- ASCII upper-casing of a string: `str.upper()` in Python, and the
identifier folding Snowflake applies to unquoted names. -/
def upStr (s : String) : String :=
  String.mk (s.data.map upChar)

/-- First value bound to an exactly matching column name, like a pandas
row lookup `row[col]` on a dataframe whose columns were upper-cased. -/
def Row.lookup? (r : Row) (c : String) : Option String :=
  (r.find? (fun p => p.1 == c)).map (fun p => p.2)

/-- Lookup with a default, used where Python would raise `KeyError`
on a missing column (never hit: dataframe rows carry every column). -/
def Row.getD (r : Row) (c : String) (d : String) : String :=
  (Row.lookup? r c).getD d

/-- Case-insensitive column lookup: Snowflake folds unquoted
identifiers to upper case, so SQL column references resolve
case-insensitively. -/
def Row.lookupCI (r : Row) (c : String) : Option String :=
  (r.find? (fun p => upStr p.1 == upStr c)).map (fun p => p.2)

/-- Set the value of a column (case-insensitive name match), the effect
of `SET col = value` on one row. -/
def Row.setCI (r : Row) (c v : String) : Row :=
  r.map (fun p => if upStr p.1 == upStr c then (p.1, v) else p)

/-- Case-insensitive equality of identifiers (Snowflake unquoted-name folding). -/
def ciEq (a b : String) : Bool :=
  upStr a == upStr b

/-- Read a table from the store. -/
def getTable (st : Store) (n : String) : Table :=
  st (upStr n)

/-- Replace a table in the store. -/
def setTable (st : Store) (n : String) (t : Table) : Store :=
  fun m => if m == upStr n then t else st m

/-- One row of the `Override_Ref` catalog (spec section 3,
"Override Reference Entry"; columns per `fetch_override_ref_data`). -/
structure CatalogEntry where
  module : Int
  module_name : String
  source_table : String
  target_table : String
  editable_column : String
deriving DecidableEq, Repr

/-- Messages surfaced on the interaction surface (`st.success`,
`st.error`, `st.info`, `st.warning`). -/
inductive Msg where
  | success (s : String)
  | error (s : String)
  | info (s : String)
  | warning (s : String)
deriving DecidableEq, Repr

/-- SQL statements this system can issue.  `insertOverride` is the
INSERT built by `insert_into_target_table` (lines 84-87): the row
columns plus `AS_AT_DATE = CURRENT_TIMESTAMP()` and
the override marker flag.  A `delete` constructor exists in the statement
language so that "no DELETE is ever issued" is a statement about the
program, not about the type. -/
inductive Stmt where
  | update (table col newVal : String) (whereEq : List (String × String))
  | insertOverride (table : String) (rowData : Row)
  | delete (table : String)
deriving DecidableEq, Repr

/-- Table an issued statement is addressed to. -/
def Stmt.tableName : Stmt → String
  | .update t _ _ _ => t
  | .insertOverride t _ => t
  | .delete t => t

def Stmt.isDelete : Stmt → Bool
  | .delete _ => true
  | _ => false

def Stmt.isInsertOverride : Stmt → Bool
  | .insertOverride _ _ => true
  | _ => false

/-- Store events: a table read (`session.table(...).to_pandas()`) or an
executed statement (`session.sql(...).collect()`). -/
inductive Ev where
  | read (table : String)
  | exec (s : Stmt)
deriving DecidableEq, Repr

/-- The single-quote character, kept out of source literals. -/
def sqC : Char := Char.ofNat 39

/-- A single quote as a string. -/
def sqS : String := String.singleton sqC

/-- One equality piece of the WHERE and SET clauses of lines 63 and 66:
the column name, an equals sign, and the value spliced between
single-quote characters by the f-string. -/
def sqlEqLit (col v : String) : String :=
  col ++ " = " ++ sqS ++ v ++ sqS

/-- The AND-join of line 63: the WHERE clause over the primary-key
column/value pairs. -/
def where_clause (pkv : List (String × String)) : String :=
  String.intercalate " AND " (pkv.map (fun p => sqlEqLit p.1 p.2))

/-- The UPDATE text of lines 64-68 (exact f-string whitespace). -/
def update_sql (t col v w : String) : String :=
  "\n            UPDATE " ++ t ++ "\n            SET " ++ sqlEqLit col v ++
    "\n            WHERE " ++ w ++ "\n        "

/-- Count of single-quote characters in a string.  A text that embeds
one value as one well-formed quoted literal contains exactly two. -/
def countQuote (s : String) : Nat :=
  s.data.count sqC

/-- Drop characters up to and including the first single quote. -/
def dropToQuote : List Char → Option (List Char)
  | [] => none
  | c :: cs => if c = sqC then some cs else dropToQuote cs

/-- Read characters up to the next single quote; returns the literal
content and the remaining text. -/
def takeToQuote : List Char → Option (String × String)
  | [] => none
  | c :: cs =>
    if c = sqC then some ("", String.mk cs)
    else (takeToQuote cs).map (fun p => (String.singleton c ++ p.1, p.2))

/-- First quoted literal of an SQL text, as an SQL lexer without escape
sequences reads it: content between the first two quote characters. -/
def firstLiteral (s : String) : Option (String × String) :=
  (dropToQuote s.data).bind takeToQuote

/-- Modelled from the spec: section 6 data store interface,
`update(table, set, where)` — the effect on the store of the UPDATE
built by `update_source_table_row`: every row whose listed columns all
equal the given values (exact value match, case-insensitive column
names) gets the editable column set to the new value. -/
def rowMatchesAll (r : Row) (pkv : List (String × String)) : Bool :=
  pkv.all (fun p => Row.lookupCI r p.1 == some p.2)

/-- Modelled from the spec: section 6, the UPDATE statement effect. -/
def execUpdate (store : Store) (srcT : String) (pkv : List (String × String))
    (col newv : String) : Store :=
  setTable store srcT
    ((getTable store srcT).map
      (fun r => if rowMatchesAll r pkv then Row.setCI r col newv else r))

/-- Modelled from the spec: section 6, the INSERT statement effect with
server-side `CURRENT_TIMESTAMP()` resolved to `now`: appends one row of
the given data plus `AS_AT_DATE` and the `RECORD_FLAG` marker "O". -/
def execInsert (now : String) (store : Store) (tgtT : String) (row : Row) : Store :=
  setTable store tgtT
    (getTable store tgtT ++ [row ++ [("AS_AT_DATE", now), ("RECORD_FLAG", "O")]])

/-- Function fetch_data (lines 36-43): read a table, upper-casing the column
names.  The `except` branch (store error degrades to an empty frame) is
not reachable in this total store model. -/
def fetch_data (store : Store) (t : String) : Table :=
  (getTable store t).map (fun r => r.map (fun p => (upStr p.1, p.2)))

/-- Python truthiness of the `selected_module` argument: `None` and
`0` are falsy, so `if selected_module:` skips the filter for both. -/
def pyTruthyInt : Option Int → Bool
  | none => false
  | some m => m != 0

/-- Function fetch_override_ref_data (lines 46-57) without the store read:
filter the catalog rows on `MODULE == int(selected_module)` — but only
when `selected_module` is truthy. -/
def fetch_override_ref_data (catalog : List CatalogEntry)
    (selected_module : Option Int) : List CatalogEntry :=
  if pyTruthyInt selected_module then
    catalog.filter (fun e => e.module == selected_module.getD 0)
  else catalog

/-- The failure oracle for store calls: the `k`-th `session.sql`
call raises the given exception text, or succeeds. -/
abbrev FailOracle := Nat → Option String

/-- Function update_source_table_row (lines 60-75): build the WHERE clause and
UPDATE text, attempt the statement; on store failure catch and report
`st.error`, otherwise report `st.success` with the WHERE clause.
Returns the store, the attempted statement, and the messages. -/
def update_source_table_row (fail : FailOracle) (k : Nat) (store : Store)
    (source_table : String) (primary_key_values : List (String × String))
    (editable_column new_value : String) : Store × List Stmt × List Msg :=
  let w := where_clause primary_key_values
  let stm := Stmt.update source_table editable_column new_value primary_key_values
  match fail k with
  | some err =>
    (store, [stm], [Msg.error ("Error updating row in " ++ source_table ++ ": " ++ err)])
  | none =>
    (execUpdate store source_table primary_key_values editable_column new_value,
     [stm],
     [Msg.success ("Successfully updated row in " ++ source_table ++ " where " ++ w)])

/-- Function insert_into_target_table (lines 78-93): attempt the INSERT of the
full row data plus `AS_AT_DATE` (server timestamp) and the marker "O";
catch store failure as `st.error`.  The `editable_column` / `new_value`
parameters are unused, exactly as in the source. -/
def insert_into_target_table (fail : FailOracle) (k : Nat) (now : String)
    (store : Store) (target_table : String) (row_data : Row)
    (_editable_column _new_value : String) : Store × List Stmt × List Msg :=
  let stm := Stmt.insertOverride target_table row_data
  match fail k with
  | some err =>
    (store, [stm], [Msg.error ("Error inserting values into " ++ target_table ++ ": " ++ err)])
  | none =>
    (execInsert now store target_table row_data,
     [stm],
     [Msg.success ("Successfully inserted data to table " ++ target_table ++
        " with RECORD_FLAG = " ++ sqS ++ "O" ++ sqS)])

/-- Line 196: `edited_df[edited_df[col] != source_df[col]]` — positional
comparison of the editable column, keeping the edited rows that differ. -/
def changed_rows (edited source : List Row) (colU : String) : List Row :=
  ((edited.zip source).filter
    (fun p => Row.lookup? p.1 colU != Row.lookup? p.2 colU)).map (fun p => p.1)

/-- Line 204: `\x7bcol: row[col] for col in primary_key_cols\x7d` — the
primary-key values extracted from the changed (edited) row. -/
def extractPk (pkCols : List String) (r : Row) : List (String × String) :=
  pkCols.map (fun c => (c, Row.getD r c ""))

/-- Loop body of lines 202-216: extract the primary-key values and the
new value from the changed row, update the source table, then insert
the full row into the target table. -/
def overrideRow (fail : FailOracle) (now : String) (k : Nat) (store : Store)
    (srcT tgtT colU colSql : String) (pkCols : List String) (row : Row) :
    Store × List Stmt × List Msg :=
  let pkv := extractPk pkCols row
  let newv := Row.getD row colU ""
  let r1 := update_source_table_row fail k store srcT pkv colSql newv
  let r2 := insert_into_target_table fail (k + 1) now r1.1 tgtT row colSql newv
  (r2.1, r1.2.1 ++ r2.2.1, r1.2.2 ++ r2.2.2)

/-- The `for index, row in changed_rows.iterrows()` loop: process every
changed row in order, two store calls per row, accumulating attempted
statements and messages.  A failed call never aborts the loop. -/
def writeLoop (fail : FailOracle) (now : String) (srcT tgtT colU colSql : String)
    (pkCols : List String) : List Row → Nat → Store → Store × List Stmt × List Msg
  | [], _, store => (store, [], [])
  | row :: rest, k, store =>
    let r1 := overrideRow fail now k store srcT tgtT colU colSql pkCols row
    let r2 := writeLoop fail now srcT tgtT colU colSql pkCols rest (k + 2) r1.1
    (r2.1, r1.2.1 ++ r2.2.1, r1.2.2 ++ r2.2.2)

/-- The Submit Updates handler (lines 193-225): detect changed rows; if
none, report "No changes were made."; otherwise run the write loop and
report the aggregate success line with the submit timestamp. -/
def submitUpdates (fail : FailOracle) (now : String) (store : Store)
    (source edited : List Row) (colU colSql : String) (pkCols : List String)
    (srcT tgtT : String) : Store × List Stmt × List Msg :=
  let changed := changed_rows edited source colU
  if changed.isEmpty then
    (store, [], [Msg.info "No changes were made."])
  else
    let r := writeLoop fail now srcT tgtT colU colSql pkCols changed 0 store
    (r.1, r.2.1, r.2.2 ++ [Msg.success ("Data updated successfully at " ++ now ++ "!")])

/-- The registered primary-key dictionary of lines 147-153. -/
def primary_key_map : List (String × List String) :=
  [("fact_portfolio_perf", ["AS_OF_DATE", "PORTFOLIO", "PORTFOLIO_SEGMENT", "CATEGORY"]),
   ("fact_income", ["AS_OF_DATE", "PORTFOLIO", "PORTFOLIO_SEGMENT", "CATEGORY"]),
   ("fact_msme", ["AS_OF_DATE", "PORTFOLIO", "PORTFOLIO_SEGMENT", "CATEGORY"]),
   ("fact_orders", ["AS_OF_DATE", "PORTFOLIO", "PORTFOLIO_SEGMENT", "CATEGORY"]),
   ("fact_customers", ["AS_OF_DATE", "PORTFOLIO", "PORTFOLIO_SEGMENT", "CATEGORY"])]

/-- Dictionary lookup with empty default of line 153. -/
def primary_key_cols (t : String) : List String :=
  ((primary_key_map.find? (fun p => p.1 == t)).map (fun p => p.2)).getD []

/-- The registered table names, for stating the unknown-table claim. -/
def registeredTables : List String :=
  ["fact_portfolio_perf", "fact_income", "fact_msme", "fact_orders", "fact_customers"]

/-- Model of int() applied to the one-character string taken from the
query parameter:
succeeds exactly on a decimal digit (ASCII range in this model),
raising `ValueError` otherwise. -/
def charDigit? (c : Char) : Option Int :=
  if 48 ≤ c.toNat ∧ c.toNat ≤ 57 then some ((c.toNat : Int) - 48) else none

/-- Result of the module-parameter handling of lines 100-114. -/
inductive ModuleParse where
  | noParam
  | emptyCrash
  | invalid
  | ok (m : Int)
deriving DecidableEq, Repr

/-- Lines 100-114: missing parameter halts with an error; the parameter
string is indexed at 0 (first character; an empty string would raise an
uncaught `IndexError`); `int()` failure halts with the invalid-module
error; otherwise the digit is the selected module. -/
def parsedModule : Option String → ModuleParse
  | none => ModuleParse.noParam
  | some s =>
    match s.data.head? with
    | none => ModuleParse.emptyCrash
    | some c =>
      match charDigit? c with
      | none => ModuleParse.invalid
      | some d => ModuleParse.ok d

/-- Order-preserving de-duplication (pandas unique, first occurrences). -/
def uniqueFirstAux : List String → List String → List String
  | _, [] => []
  | seen, x :: xs =>
    if x ∈ seen then uniqueFirstAux seen xs
    else x :: uniqueFirstAux (x :: seen) xs

def uniqueFirst (l : List String) : List String :=
  uniqueFirstAux [] l

/-- How one interactive run of the script ends. -/
inductive Outcome where
  | halted (msg : String)
  | crashed
  | completed
deriving DecidableEq, Repr

/-- Result of one run: final outcome, store events in order, messages,
final store, and the resolved (source table, target table) pair of the
session once table selection has happened. -/
structure AppResult where
  outcome : Outcome
  events : List Ev
  msgs : List Msg
  store : Store
  session : Option (String × String)

/-- Input of one interactive run: the `module` query parameter, the
catalog contents, the store, which table the selectbox picks (index
into the deduplicated options), the grid contents at submit time,
whether Submit Updates was clicked, the store failure oracle, and the
wall-clock / server timestamp. -/
structure AppInput where
  moduleParam : Option String
  catalog : List CatalogEntry
  store : Store
  tableChoice : Nat
  edited : List Row
  submit : Bool
  fail : FailOracle
  now : String

def noModuleMsg : String := "Please select a module from the Power BI report."

def invalidModuleMsg : String :=
  "Invalid module number. Please ensure the module number is an integer."

def moduleMissingMsg (m : Int) : String :=
  "Module " ++ toString m ++ " does not exist in Override_Ref. No data to display."

def pkMissingMsg : String :=
  "Primary key columns not defined for this table. Please update the code."

def noTablesMsg : String :=
  "No tables found for the selected module in Override_Ref table."

/-- Lines 146 onward, once module, table and column are resolved:
resolve primary keys (halting when unregistered, before any table
read); tab 1 reads the source table and, on submit, runs the write
loop; tab 2 reads the target table. -/
def runWithTable (inp : AppInput) (ev0 : List Ev)
    (selected_table target_table selected_column : String) : AppResult :=
  let colU := upStr selected_column
  let pk := primary_key_cols selected_table
  if pk.isEmpty then
    ⟨Outcome.halted pkMissingMsg, ev0, [Msg.error pkMissingMsg], inp.store,
      some (selected_table, target_table)⟩
  else
    let ev1 := ev0 ++ [Ev.read selected_table]
    let source_df := fetch_data inp.store selected_table
    if source_df.isEmpty then
      ⟨Outcome.completed, ev1 ++ [Ev.read target_table],
        [Msg.info ("No data available in " ++ selected_table ++ ".")], inp.store,
        some (selected_table, target_table)⟩
    else
      if inp.submit then
        let r := submitUpdates inp.fail inp.now inp.store source_df inp.edited
          colU selected_column pk selected_table target_table
        ⟨Outcome.completed, ev1 ++ r.2.1.map Ev.exec ++ [Ev.read target_table],
          r.2.2, r.1, some (selected_table, target_table)⟩
      else
        ⟨Outcome.completed, ev1 ++ [Ev.read target_table], [], inp.store,
          some (selected_table, target_table)⟩

/-- The deduplicated source-table options of the selectbox (line 129). -/
def availableTables (mt : List CatalogEntry) : List String :=
  uniqueFirst (mt.map (fun e => e.source_table))

/-- The table the selectbox yields, as the `choice`-th option. -/
def selectedTableOf (choice : Nat) (mt : List CatalogEntry) : String :=
  (availableTables mt).getD (choice % (availableTables mt).length) ""

/-- Line 135: the catalog entries of the selected table. -/
def tableEntries (choice : Nat) (mt : List CatalogEntry) : List CatalogEntry :=
  mt.filter (fun e => e.source_table == selectedTableOf choice mt)

/-- Lines 117-144: read the catalog filtered by the module; empty means
the module is not configured and the session halts; otherwise pick the
table from the deduplicated source tables, resolve its target table and
editable column (first matching entry), and continue. -/
def afterModule (inp : AppInput) (m : Int) : AppResult :=
  let ev0 := [Ev.read "Override_Ref"]
  let mt := fetch_override_ref_data inp.catalog (some m)
  if mt.isEmpty then
    ⟨Outcome.halted (moduleMissingMsg m), ev0, [Msg.error (moduleMissingMsg m)],
      inp.store, none⟩
  else
    match tableEntries inp.tableChoice mt with
    | [] => ⟨Outcome.completed, ev0, [Msg.warning noTablesMsg], inp.store, none⟩
    | e0 :: rest =>
      runWithTable inp ev0 (selectedTableOf inp.tableChoice mt) e0.target_table
        ((uniqueFirst ((e0 :: rest).map (fun e => e.editable_column))).getD 0 "")

/-- One full run of the script (lines 96 onward): parse the module
query parameter, then the catalog / table / write pipeline. -/
def runApp (inp : AppInput) : AppResult :=
  match parsedModule inp.moduleParam with
  | ModuleParse.noParam =>
    ⟨Outcome.halted noModuleMsg, [], [Msg.error noModuleMsg], inp.store, none⟩
  | ModuleParse.emptyCrash =>
    ⟨Outcome.crashed, [], [], inp.store, none⟩
  | ModuleParse.invalid =>
    ⟨Outcome.halted invalidModuleMsg, [], [Msg.error invalidModuleMsg], inp.store, none⟩
  | ModuleParse.ok m => afterModule inp m

/-- A concrete source row of `fact_orders` (schema of spec section 8). -/
def rowA : Row :=
  [("AS_OF_DATE", "2024-01-31"), ("PORTFOLIO", "P1"),
   ("PORTFOLIO_SEGMENT", "S1"), ("CATEGORY", "A"), ("AMOUNT", "100")]

/-- Copy of rowA with `CATEGORY` changed from "A" to "B". -/
def rowB : Row :=
  [("AS_OF_DATE", "2024-01-31"), ("PORTFOLIO", "P1"),
   ("PORTFOLIO_SEGMENT", "S1"), ("CATEGORY", "B"), ("AMOUNT", "100")]

/-- The registered primary-key column list. -/
def pkColsC : List String :=
  ["AS_OF_DATE", "PORTFOLIO", "PORTFOLIO_SEGMENT", "CATEGORY"]

/-- The catalog entry of the spec section 8 scenario. -/
def entryC : CatalogEntry :=
  ⟨1, "Lending", "fact_orders", "fact_orders_override", "CATEGORY"⟩

/-- A concrete store: `fact_orders` holds `rowA`, all else empty. -/
def storeC : Store :=
  fun n => if n = "FACT_ORDERS" then [rowA] else []

/-- Oracle under which every store call succeeds. -/
def failNone : FailOracle := fun _ => none

/-- Oracle under which exactly the first store call fails. -/
def failFirst : FailOracle :=
  fun k => if k = 0 then some "boom" else none

/-- A value containing a single quote, for the quoting claim. -/
def quoteDemoVal : String := "O" ++ sqS ++ "Brien"

/-- A concrete run input: module "1", the scenario catalog and store,
submit clicked with `rowB` in the grid, all store calls succeeding. -/
def inpC8 : AppInput :=
  ⟨some "1", [entryC], storeC, 0, [rowB], true, failNone, "2025-01-01 00:00:00"⟩

/-- A concrete run input whose catalog is empty. -/
def inpC7 : AppInput :=
  ⟨some "1", [], storeC, 0, [], false, failNone, "ts"⟩

/-- A concrete run input whose module parameter starts with a non-digit. -/
def inpC10 : AppInput :=
  ⟨some "x2", [entryC], storeC, 0, [], false, failNone, "ts"⟩

/-- Copy of rowA edited in a non-key column: `AMOUNT` changed to "200". -/
def rowA2 : Row :=
  [("AS_OF_DATE", "2024-01-31"), ("PORTFOLIO", "P1"),
   ("PORTFOLIO_SEGMENT", "S1"), ("CATEGORY", "A"), ("AMOUNT", "200")]

lemma getTable_setTable (st : Store) (n : String) (t : Table) (m : String) :
    getTable (setTable st n t) m = if upStr m == upStr n then t else getTable st m :=
  rfl

lemma changed_rows_nil (edited source : List Row) (colU : String)
    (h : ∀ j : Nat, (edited[j]?).map (fun r => Row.lookup? r colU) =
      (source[j]?).map (fun r => Row.lookup? r colU)) :
    changed_rows edited source colU = [] := by
  induction edited generalizing source with
  | nil => simp [changed_rows]
  | cons a e ih =>
    cases source with
    | nil => have h0 := h 0; simp at h0
    | cons b s =>
      have h0 := h 0
      simp at h0
      have ht := ih s (fun j => by simpa using h (j + 1))
      simp only [changed_rows, List.zip_cons_cons, List.filter_cons] at ht ⊢
      rw [h0]
      simpa [bne_self_eq_false] using ht

lemma changed_rows_single (edited source : List Row) (colU : String) (i : Nat)
    (ei si : Row)
    (hei : edited[i]? = some ei) (hsi : source[i]? = some si)
    (hothers : ∀ j : Nat, j ≠ i → (edited[j]?).map (fun r => Row.lookup? r colU) =
      (source[j]?).map (fun r => Row.lookup? r colU))
    (hdiff : Row.lookup? ei colU ≠ Row.lookup? si colU) :
    changed_rows edited source colU = [ei] := by
  induction edited generalizing source i with
  | nil => simp at hei
  | cons a e ih =>
    cases source with
    | nil => simp at hsi
    | cons b s =>
      cases i with
      | zero =>
        simp only [List.getElem?_cons_zero, Option.some.injEq] at hei hsi
        subst hei; subst hsi
        have ht := changed_rows_nil e s colU
          (fun j => by simpa using hothers (j + 1) (Nat.succ_ne_zero j))
        simp only [changed_rows, List.zip_cons_cons, List.filter_cons] at ht ⊢
        rw [bne_iff_ne.mpr hdiff] at *
        simpa using ht
      | succ n =>
        have h0 := hothers 0 (by omega)
        simp at h0
        have ht := ih s n (by simpa using hei) (by simpa using hsi)
          (fun j hj => by simpa using hothers (j + 1) (by omega))
        simp only [changed_rows, List.zip_cons_cons, List.filter_cons] at ht ⊢
        rw [h0]
        simpa [bne_self_eq_false] using ht

/-- C3: for every row-set and an unedited copy of it, change detection
over the editable column returns the empty sequence, and Submit Updates
issues zero statements against either table, leaves the store
unchanged, and reports "No changes were made.". -/
theorem c3_noop_submit (fail : FailOracle) (now : String) (store : Store)
    (source : List Row) (colU colSql : String) (pkCols : List String)
    (srcT tgtT : String) :
    changed_rows source source colU = [] ∧
    submitUpdates fail now store source source colU colSql pkCols srcT tgtT =
      (store, [], [Msg.info "No changes were made."]) := by
  have hc : changed_rows source source colU = [] :=
    changed_rows_nil source source colU (fun j => rfl)
  refine ⟨hc, ?_⟩
  simp [submitUpdates, hc]

/-- C4 counterexample: with module filter `0`, `fetch_override_ref_data`
returns the whole catalog — here an entry whose MODULE is 1, not 0 —
because `if selected_module:` is false for the integer 0 and the filter
is skipped. -/
theorem c4_zero_module_counterexample :
    fetch_override_ref_data [entryC] (some 0) = [entryC] ∧ entryC.module ≠ 0 :=
  ⟨rfl, by decide⟩

/-- C4 (amended): for every nonzero integer module filter, the catalog
load returns exactly the entries whose MODULE equals the filter; the
module-0 case is excluded because Python truthiness skips the filter
there. -/
theorem c4_module_filter (catalog : List CatalogEntry) (m : Int) (h : m ≠ 0)
    (e : CatalogEntry) :
    e ∈ fetch_override_ref_data catalog (some m) ↔ e ∈ catalog ∧ e.module = m := by
  unfold fetch_override_ref_data
  have hm : pyTruthyInt (some m) = true := by
    simp [pyTruthyInt, bne_iff_ne, h]
  rw [hm]
  simp [List.mem_filter]

theorem c4_module_filter_witness :
    entryC ∈ fetch_override_ref_data [entryC] (some 1) :=
  (c4_module_filter [entryC] 1 (by decide) entryC).mpr ⟨by simp, rfl⟩

/-- C9: for a value with one embedded single quote (the letter O, a
quote, then Brien), the quoted
splice built by the UPDATE construction has three quote characters, so
it is not one well-formed quoted literal; an SQL lexer reading the
built statement takes the SET literal to be "O", not the intended
value, so the write cannot apply the intended value. -/
theorem c9_quote_bug :
    countQuote quoteDemoVal = 1 ∧
    countQuote (sqS ++ quoteDemoVal ++ sqS) = 3 ∧
    (firstLiteral (update_sql "fact_orders" "CATEGORY" quoteDemoVal
      (where_clause (extractPk pkColsC rowA)))).map Prod.fst = some "O" ∧
    some quoteDemoVal ≠
      (firstLiteral (update_sql "fact_orders" "CATEGORY" quoteDemoVal
        (where_clause (extractPk pkColsC rowA)))).map Prod.fst := by
  refine ⟨by decide, by decide, by decide, by decide⟩

/-- C2 counterexample: the spec scenario has the editable column
`CATEGORY`, which is also a primary-key column.  With exactly one row
edited there, detection does return that row, but the key tuple the
write receives is taken from the edited row, so it carries the NEW
value "B" instead of the original "A" — and consequently the UPDATE
matches no source row: after the submit the source table still holds
the unedited row. -/
theorem c2_pk_from_edited_counterexample :
    changed_rows [rowB] [rowA] "CATEGORY" = [rowB] ∧
    extractPk pkColsC rowB ≠ extractPk pkColsC rowA ∧
    getTable (submitUpdates failNone "2025-01-01 00:00:00" storeC [rowA] [rowB]
      "CATEGORY" "CATEGORY" pkColsC "fact_orders" "fact_orders_override").1
      "fact_orders" = [rowA] ∧
    Row.lookup? rowA "CATEGORY" = some "A" := by
  refine ⟨by decide, by decide, by decide, by decide⟩

/-- C2 (amended): for equal-length, same-order row-sets with exactly
one row edited and only in the editable column, change detection
returns exactly that row, and — provided the editable column is not
itself one of the primary-key columns — the key tuple the per-row
write receives equals the primary-key tuple of the original row (the
new value is the editable-column value of the edited row by
construction of the loop). -/
theorem c2_single_edit_detection (source edited : List Row) (colU : String)
    (pkCols : List String) (i : Nat) (ei si : Row)
    (_hlen : edited.length = source.length)
    (hei : edited[i]? = some ei) (hsi : source[i]? = some si)
    (hothers : ∀ j : Nat, j ≠ i → edited[j]? = source[j]?)
    (hrow : ∀ c : String, c ≠ colU → Row.lookup? ei c = Row.lookup? si c)
    (hdiff : Row.lookup? ei colU ≠ Row.lookup? si colU)
    (hpk : ∀ c ∈ pkCols, c ≠ colU) :
    changed_rows edited source colU = [ei] ∧
    extractPk pkCols ei = extractPk pkCols si := by
  constructor
  · exact changed_rows_single edited source colU i ei si hei hsi
      (fun j hj => by rw [hothers j hj]) hdiff
  · unfold extractPk
    refine List.map_congr_left (fun c hc => ?_)
    have := hrow c (hpk c hc)
    simp [Row.getD, this]

theorem c2_single_edit_detection_witness :
    changed_rows [rowA2] [rowA] "AMOUNT" = [rowA2] ∧
    extractPk pkColsC rowA2 = extractPk pkColsC rowA :=
  c2_single_edit_detection [rowA] [rowA2] "AMOUNT" pkColsC 0 rowA2 rowA
    (by decide) (by decide) (by decide)
    (fun j hj => by cases j with | zero => exact absurd rfl hj | succ n => rfl)
    (by
      intro c hc
      have h1 : ("AMOUNT" == c) = false := by
        rw [beq_eq_false_iff_ne]
        exact fun h => hc h.symm
      simp [rowA2, rowA, Row.lookup?, List.find?, h1])
    (by decide) (by decide)

/-- C1: a successful apply-override for one changed row — both store
calls succeed, source and target being distinct tables — has exactly
the two effects: in the source table, precisely the rows whose
primary-key columns all equal the given values get the editable column
set to the new value (all other rows and tables untouched), and the
target table becomes its old contents plus one appended row holding
every column of the full edited row, the write-time `AS_AT_DATE`, and
the override marker "O"; in particular every previously present target
row is unchanged (append-only). -/
theorem c1_apply_override (fail : FailOracle) (k : Nat) (now : String)
    (store : Store) (srcT tgtT : String) (pkv : List (String × String))
    (col newv : String) (row_data : Row)
    (h1 : fail k = none) (h2 : fail (k + 1) = none)
    (hne : ciEq srcT tgtT = false) :
    getTable (insert_into_target_table fail (k + 1) now
      (update_source_table_row fail k store srcT pkv col newv).1
      tgtT row_data col newv).1 srcT =
      (getTable store srcT).map
        (fun r => if rowMatchesAll r pkv then Row.setCI r col newv else r) ∧
    getTable (insert_into_target_table fail (k + 1) now
      (update_source_table_row fail k store srcT pkv col newv).1
      tgtT row_data col newv).1 tgtT =
      getTable store tgtT ++ [row_data ++ [("AS_AT_DATE", now), ("RECORD_FLAG", "O")]] ∧
    (getTable (insert_into_target_table fail (k + 1) now
      (update_source_table_row fail k store srcT pkv col newv).1
      tgtT row_data col newv).1 tgtT).take (getTable store tgtT).length =
      getTable store tgtT := by
  have hne1 : (upStr srcT == upStr tgtT) = false := hne
  have hne2 : (upStr tgtT == upStr srcT) = false := by
    rw [beq_eq_false_iff_ne] at hne1 ⊢
    exact fun h => hne1 h.symm
  refine ⟨?_, ?_, ?_⟩ <;>
    simp [update_source_table_row, insert_into_target_table, h1, h2,
      execUpdate, execInsert, getTable_setTable, hne1, hne2, List.take_left]

theorem c1_apply_override_witness :
    getTable (insert_into_target_table failNone (0 + 1) "2025-01-01 00:00:00"
      (update_source_table_row failNone 0 storeC "fact_orders"
        (extractPk pkColsC rowA) "CATEGORY" "B").1
      "fact_orders_override" rowB "CATEGORY" "B").1 "fact_orders" =
      (getTable storeC "fact_orders").map
        (fun r => if rowMatchesAll r (extractPk pkColsC rowA)
          then Row.setCI r "CATEGORY" "B" else r) ∧
    getTable (insert_into_target_table failNone (0 + 1) "2025-01-01 00:00:00"
      (update_source_table_row failNone 0 storeC "fact_orders"
        (extractPk pkColsC rowA) "CATEGORY" "B").1
      "fact_orders_override" rowB "CATEGORY" "B").1 "fact_orders_override" =
      getTable storeC "fact_orders_override" ++
        [rowB ++ [("AS_AT_DATE", "2025-01-01 00:00:00"), ("RECORD_FLAG", "O")]] ∧
    (getTable (insert_into_target_table failNone (0 + 1) "2025-01-01 00:00:00"
      (update_source_table_row failNone 0 storeC "fact_orders"
        (extractPk pkColsC rowA) "CATEGORY" "B").1
      "fact_orders_override" rowB "CATEGORY" "B").1 "fact_orders_override").take
      (getTable storeC "fact_orders_override").length =
      getTable storeC "fact_orders_override" :=
  c1_apply_override failNone 0 "2025-01-01 00:00:00" storeC "fact_orders"
    "fact_orders_override" (extractPk pkColsC rowA) "CATEGORY" "B" rowB
    rfl rfl (by decide)

lemma update_row_stmts (fail : FailOracle) (k : Nat) (store : Store)
    (srcT : String) (pkv : List (String × String)) (col newv : String) :
    (update_source_table_row fail k store srcT pkv col newv).2.1 =
      [Stmt.update srcT col newv pkv] := by
  unfold update_source_table_row
  cases fail k <;> rfl

lemma insert_row_stmts (fail : FailOracle) (k : Nat) (now : String) (store : Store)
    (tgtT : String) (row_data : Row) (ecol newv : String) :
    (insert_into_target_table fail k now store tgtT row_data ecol newv).2.1 =
      [Stmt.insertOverride tgtT row_data] := by
  unfold insert_into_target_table
  cases fail k <;> rfl

lemma overrideRow_stmts (fail : FailOracle) (now : String) (k : Nat) (store : Store)
    (srcT tgtT colU colSql : String) (pkCols : List String) (row : Row) :
    (overrideRow fail now k store srcT tgtT colU colSql pkCols row).2.1 =
      [Stmt.update srcT colSql (Row.getD row colU "") (extractPk pkCols row),
       Stmt.insertOverride tgtT row] := by
  unfold overrideRow
  simp [update_row_stmts, insert_row_stmts]

lemma writeLoop_stmts (fail : FailOracle) (now srcT tgtT colU colSql : String)
    (pkCols : List String) :
    ∀ (rows : List Row) (k : Nat) (store : Store),
    (writeLoop fail now srcT tgtT colU colSql pkCols rows k store).2.1 =
      rows.flatMap (fun row =>
        [Stmt.update srcT colSql (Row.getD row colU "") (extractPk pkCols row),
         Stmt.insertOverride tgtT row]) := by
  intro rows
  induction rows with
  | nil => intro k store; rfl
  | cons row rest ih =>
    intro k store
    simp [writeLoop, overrideRow_stmts, ih]

lemma writeLoop_update_error (fail : FailOracle) (now srcT tgtT colU colSql : String)
    (pkCols : List String) :
    ∀ (rows : List Row) (k : Nat) (store : Store) (i : Nat) (err : String),
    i < rows.length → fail (k + 2 * i) = some err →
    Msg.error ("Error updating row in " ++ srcT ++ ": " ++ err) ∈
      (writeLoop fail now srcT tgtT colU colSql pkCols rows k store).2.2 := by
  intro rows
  induction rows with
  | nil => intro k store i err hi; simp at hi
  | cons row rest ih =>
    intro k store i err hi hf
    cases i with
    | zero =>
      simp only [Nat.mul_zero, Nat.add_zero] at hf
      simp [writeLoop, overrideRow, update_source_table_row, hf]
    | succ n =>
      have harith : k + 2 * (n + 1) = (k + 2) + 2 * n := by ring
      rw [harith] at hf
      have hmem := ih (k + 2)
        (overrideRow fail now k store srcT tgtT colU colSql pkCols row).1
        n err (by simpa using Nat.lt_of_succ_lt_succ hi) hf
      simp [writeLoop, List.mem_append]
      tauto

lemma writeLoop_insert_error (fail : FailOracle) (now srcT tgtT colU colSql : String)
    (pkCols : List String) :
    ∀ (rows : List Row) (k : Nat) (store : Store) (i : Nat) (err : String),
    i < rows.length → fail (k + 2 * i + 1) = some err →
    Msg.error ("Error inserting values into " ++ tgtT ++ ": " ++ err) ∈
      (writeLoop fail now srcT tgtT colU colSql pkCols rows k store).2.2 := by
  intro rows
  induction rows with
  | nil => intro k store i err hi; simp at hi
  | cons row rest ih =>
    intro k store i err hi hf
    cases i with
    | zero =>
      simp only [Nat.mul_zero, Nat.add_zero] at hf
      simp [writeLoop, overrideRow, insert_into_target_table, hf]
    | succ n =>
      have harith : k + 2 * (n + 1) + 1 = (k + 2) + 2 * n + 1 := by ring
      rw [harith] at hf
      have hmem := ih (k + 2)
        (overrideRow fail now k store srcT tgtT colU colSql pkCols row).1
        n err (by simpa using Nat.lt_of_succ_lt_succ hi) hf
      simp [writeLoop, List.mem_append]
      tauto

/-- C5: in the per-row write loop, the sequence of attempted statements
does not depend on which store calls fail (both statements of every
changed row are still attempted: failures never abort the batch), there
are exactly two attempted statements per changed row, and every failed
step — the source-table update at call 2i, the target-table insert at
call 2i+1 — surfaces an explicit error message naming the table and
the exception text of the store, so a partially completed row (one step
succeeded, the other failed) is reported, not swallowed. -/
theorem c5_write_failures (fail fail2 : FailOracle) (now now2 : String)
    (store store2 : Store) (srcT tgtT colU colSql : String)
    (pkCols : List String) (rows : List Row) (k : Nat) :
    ((writeLoop fail now srcT tgtT colU colSql pkCols rows k store).2.1 =
      (writeLoop fail2 now2 srcT tgtT colU colSql pkCols rows k store2).2.1) ∧
    ((writeLoop fail now srcT tgtT colU colSql pkCols rows k store).2.1.length =
      2 * rows.length) ∧
    (∀ (i : Nat) (err : String), i < rows.length → fail (k + 2 * i) = some err →
      Msg.error ("Error updating row in " ++ srcT ++ ": " ++ err) ∈
        (writeLoop fail now srcT tgtT colU colSql pkCols rows k store).2.2) ∧
    (∀ (i : Nat) (err : String), i < rows.length → fail (k + 2 * i + 1) = some err →
      Msg.error ("Error inserting values into " ++ tgtT ++ ": " ++ err) ∈
        (writeLoop fail now srcT tgtT colU colSql pkCols rows k store).2.2) := by
  refine ⟨?_, ?_, ?_, ?_⟩
  · rw [writeLoop_stmts, writeLoop_stmts]
  · rw [writeLoop_stmts]
    induction rows with
    | nil => rfl
    | cons row rest ih => simp at ih ⊢; omega
  · exact writeLoop_update_error fail now srcT tgtT colU colSql pkCols rows k store
  · exact writeLoop_insert_error fail now srcT tgtT colU colSql pkCols rows k store

theorem c5_write_failures_witness :
    Msg.error ("Error updating row in " ++ "fact_orders" ++ ": " ++ "boom") ∈
      (writeLoop failFirst "ts" "fact_orders" "fact_orders_override"
        "CATEGORY" "CATEGORY" pkColsC [rowB] 0 storeC).2.2 ∧
    (writeLoop failFirst "ts" "fact_orders" "fact_orders_override"
      "CATEGORY" "CATEGORY" pkColsC [rowB] 0 storeC).2.1.length = 2 * 1 := by
  have h := c5_write_failures failFirst failNone "ts" "ts" storeC storeC
    "fact_orders" "fact_orders_override" "CATEGORY" "CATEGORY" pkColsC [rowB] 0
  exact ⟨h.2.2.1 0 "boom" (by decide) (by decide), h.2.1⟩

/-- C6: for every table name outside the registered primary-key set,
key resolution yields the empty list, the session halts with the
unknown-table error right there — before the source table is even
read — with no new store events and the store untouched: no write is
attempted against any table. -/
theorem c6_unknown_table (inp : AppInput) (ev0 : List Ev) (t tgt col : String)
    (h : t ∉ registeredTables) :
    primary_key_cols t = [] ∧
    runWithTable inp ev0 t tgt col =
      ⟨Outcome.halted pkMissingMsg, ev0, [Msg.error pkMissingMsg], inp.store,
        some (t, tgt)⟩ := by
  have hne : t ≠ "fact_portfolio_perf" ∧ t ≠ "fact_income" ∧ t ≠ "fact_msme" ∧
      t ≠ "fact_orders" ∧ t ≠ "fact_customers" := by
    simpa [registeredTables] using h
  obtain ⟨h1, h2, h3, h4, h5⟩ := hne
  have e1 : ("fact_portfolio_perf" == t) = false := by
    rw [beq_eq_false_iff_ne]; exact fun hh => h1 hh.symm
  have e2 : ("fact_income" == t) = false := by
    rw [beq_eq_false_iff_ne]; exact fun hh => h2 hh.symm
  have e3 : ("fact_msme" == t) = false := by
    rw [beq_eq_false_iff_ne]; exact fun hh => h3 hh.symm
  have e4 : ("fact_orders" == t) = false := by
    rw [beq_eq_false_iff_ne]; exact fun hh => h4 hh.symm
  have e5 : ("fact_customers" == t) = false := by
    rw [beq_eq_false_iff_ne]; exact fun hh => h5 hh.symm
  have hpk : primary_key_cols t = [] := by
    simp [primary_key_cols, primary_key_map, List.find?, e1, e2, e3, e4, e5]
  refine ⟨hpk, ?_⟩
  simp [runWithTable, hpk]

theorem c6_unknown_table_witness :
    primary_key_cols "fact_sales" = [] ∧
    runWithTable inpC7 [Ev.read "Override_Ref"] "fact_sales" "fact_sales_override"
      "CATEGORY" =
      ⟨Outcome.halted pkMissingMsg, [Ev.read "Override_Ref"],
        [Msg.error pkMissingMsg], inpC7.store,
        some ("fact_sales", "fact_sales_override")⟩ :=
  c6_unknown_table inpC7 [Ev.read "Override_Ref"] "fact_sales"
    "fact_sales_override" "CATEGORY" (by decide)

/-- C7: whenever the catalog lookup for the parsed module returns zero
entries, the run halts with the module-not-configured error; the only
store event is the one catalog read — no source or target table is
read, nothing is written (store unchanged), and the catalog read is not
retried. -/
theorem c7_empty_catalog (inp : AppInput) (m : Int)
    (hm : parsedModule inp.moduleParam = ModuleParse.ok m)
    (hempty : fetch_override_ref_data inp.catalog (some m) = []) :
    runApp inp = ⟨Outcome.halted (moduleMissingMsg m), [Ev.read "Override_Ref"],
      [Msg.error (moduleMissingMsg m)], inp.store, none⟩ := by
  unfold runApp
  rw [hm]
  simp [afterModule, hempty]

theorem c7_empty_catalog_witness :
    runApp inpC7 = ⟨Outcome.halted (moduleMissingMsg 1), [Ev.read "Override_Ref"],
      [Msg.error (moduleMissingMsg 1)], inpC7.store, none⟩ :=
  c7_empty_catalog inpC7 1 (by decide) (by decide)

/-- C10: for every module query parameter longer than one character,
only its first character is consulted: a digit first character selects
that digit as the module (so "12" selects module 1, shown in the
witness), and a non-digit first character halts the run with the
invalid-module error before any store event — in particular before any
catalog read. -/
theorem c10_module_first_char (s : String) (_hlen : 1 < s.length) (c : Char)
    (hc : s.data.head? = some c) :
    (∀ d : Int, charDigit? c = some d → parsedModule (some s) = ModuleParse.ok d) ∧
    (charDigit? c = none → parsedModule (some s) = ModuleParse.invalid ∧
      ∀ inp : AppInput, inp.moduleParam = some s →
        (runApp inp).outcome = Outcome.halted invalidModuleMsg ∧
        (runApp inp).events = []) := by
  constructor
  · intro d hd
    simp [parsedModule, hc, hd]
  · intro hnone
    have hp : parsedModule (some s) = ModuleParse.invalid := by
      simp [parsedModule, hc, hnone]
    refine ⟨hp, fun inp hinp => ?_⟩
    unfold runApp
    rw [hinp, hp]
    exact ⟨rfl, rfl⟩

theorem c10_module_first_char_witness :
    parsedModule (some "12") = ModuleParse.ok 1 ∧
    parsedModule (some "x2") = ModuleParse.invalid ∧
    (runApp inpC10).outcome = Outcome.halted invalidModuleMsg ∧
    (runApp inpC10).events = [] := by
  have h1 := (c10_module_first_char "12" (by decide) '1' rfl).1 1 (by decide)
  have h2 := (c10_module_first_char "x2" (by decide) 'x' rfl).2 (by decide)
  exact ⟨h1, h2.1, (h2.2 inpC10 rfl).1, (h2.2 inpC10 rfl).2⟩

lemma submit_stmts_shape (fail : FailOracle) (now : String) (store : Store)
    (source edited : List Row) (colU colSql : String) (pkCols : List String)
    (srcT tgtT : String) (s : Stmt)
    (hs : s ∈ (submitUpdates fail now store source edited colU colSql pkCols srcT tgtT).2.1) :
    (∃ v w, s = Stmt.update srcT colSql v w) ∨ (∃ r, s = Stmt.insertOverride tgtT r) := by
  unfold submitUpdates at hs
  by_cases hc : (changed_rows edited source colU).isEmpty
  · simp [hc] at hs
  · simp only [hc, if_false, Bool.false_eq_true] at hs
    rw [writeLoop_stmts] at hs
    simp only [List.mem_flatMap, List.mem_cons, List.mem_singleton] at hs
    obtain ⟨row, _, hmem⟩ := hs
    rcases hmem with h | h | h
    · exact Or.inl ⟨_, _, h⟩
    · exact Or.inr ⟨_, h⟩
    · simp at h

lemma runWithTable_session (inp : AppInput) (ev0 : List Ev)
    (st tt col : String) :
    (runWithTable inp ev0 st tt col).session = some (st, tt) := by
  unfold runWithTable
  by_cases hpk : (primary_key_cols st).isEmpty <;>
    by_cases hsrc : (fetch_data inp.store st).isEmpty <;>
    by_cases hsub : inp.submit <;>
    simp [hpk, hsrc, hsub]

lemma runWithTable_exec (inp : AppInput) (ev0 : List Ev) (st tt col : String)
    (hev : ∀ u : Stmt, Ev.exec u ∉ ev0) (s : Stmt)
    (hs : Ev.exec s ∈ (runWithTable inp ev0 st tt col).events) :
    (∃ v w, s = Stmt.update st col v w) ∨ (∃ r, s = Stmt.insertOverride tt r) := by
  unfold runWithTable at hs
  by_cases hpk : (primary_key_cols st).isEmpty
  · simp only [hpk, if_true] at hs
    exact absurd hs (hev s)
  · simp only [hpk, if_false, Bool.false_eq_true] at hs
    by_cases hsrc : (fetch_data inp.store st).isEmpty
    · simp only [hsrc, if_true] at hs
      simp only [List.mem_append, List.mem_singleton] at hs
      rcases hs with (h | h) | h
      · exact absurd h (hev s)
      · simp at h
      · simp at h
    · simp only [hsrc, if_false, Bool.false_eq_true] at hs
      by_cases hsub : inp.submit
      · simp only [hsub, if_true] at hs
        simp only [List.mem_append, List.mem_singleton, List.mem_map] at hs
        rcases hs with ((h | h) | h) | h
        · exact absurd h (hev s)
        · simp at h
        · obtain ⟨u, hu, heq⟩ := h
          have : s = u := by injection heq.symm
          subst this
          exact submit_stmts_shape inp.fail inp.now inp.store
            (fetch_data inp.store st) inp.edited (upStr col) col
            (primary_key_cols st) st tt s hu
        · simp at h
      · simp only [hsub, if_false, Bool.false_eq_true] at hs
        simp only [List.mem_append, List.mem_singleton] at hs
        rcases hs with (h | h) | h
        · exact absurd h (hev s)
        · simp at h
        · simp at h

set_option maxHeartbeats 1000000 in
/-- C8: in every run whose session resolves a (source, target) pair of
distinct physical tables, every statement issued against the target
(override) table is an INSERT: no UPDATE and no DELETE is ever executed
against it (indeed no DELETE is issued at all), so target tables only
accumulate appended override rows. -/
theorem c8_target_insert_only (inp : AppInput) (src tgt : String)
    (hsess : (runApp inp).session = some (src, tgt))
    (hne : ciEq src tgt = false) :
    ∀ s : Stmt, Ev.exec s ∈ (runApp inp).events →
      s.isDelete = false ∧ (ciEq s.tableName tgt = true → s.isInsertOverride = true) := by
  intro s hs
  unfold runApp at hsess hs
  cases hm : parsedModule inp.moduleParam with
  | noParam => rw [hm] at hsess; simp at hsess
  | emptyCrash => rw [hm] at hsess; simp at hsess
  | invalid => rw [hm] at hsess; simp at hsess
  | ok m =>
    rw [hm] at hsess hs
    unfold afterModule at hsess hs
    by_cases hmt : (fetch_override_ref_data inp.catalog (some m)).isEmpty
    · simp [hmt] at hsess
    · simp only [hmt, if_false, Bool.false_eq_true] at hsess hs
      cases hfil : tableEntries inp.tableChoice
          (fetch_override_ref_data inp.catalog (some m)) with
      | nil => rw [hfil] at hsess; simp at hsess
      | cons e0 rest =>
        rw [hfil] at hsess hs
        dsimp only at hsess hs
        generalize hgsel : selectedTableOf inp.tableChoice
            (fetch_override_ref_data inp.catalog (some m)) = selT at hsess hs
        generalize hgcol : (uniqueFirst ((e0 :: rest).map
            (fun e => e.editable_column))).getD 0 "" = colT at hsess hs
        rw [runWithTable_session] at hsess
        have hsrc : selT = src := congrArg Prod.fst (Option.some.inj hsess)
        have htgt : e0.target_table = tgt := congrArg Prod.snd (Option.some.inj hsess)
        have hshape := runWithTable_exec inp [Ev.read "Override_Ref"] selT
          e0.target_table colT (by intro u hu; simp at hu) s hs
        rcases hshape with ⟨v, w, rfl⟩ | ⟨r, rfl⟩
        · refine ⟨rfl, fun htab => ?_⟩
          dsimp only [Stmt.tableName] at htab
          rw [hsrc, hne] at htab
          exact absurd htab (by simp)
        · rw [htgt]
          exact ⟨rfl, fun _ => rfl⟩

set_option maxHeartbeats 2000000 in
theorem c8_target_insert_only_witness :
    (Stmt.insertOverride "fact_orders_override" rowB).isDelete = false ∧
    (ciEq (Stmt.insertOverride "fact_orders_override" rowB).tableName
      "fact_orders_override" = true →
      (Stmt.insertOverride "fact_orders_override" rowB).isInsertOverride = true) :=
  c8_target_insert_only inpC8 "fact_orders" "fact_orders_override"
    (by decide) (by decide)
    (Stmt.insertOverride "fact_orders_override" rowB) (by decide)
